import Mathlib

/-!
Shallow embedding of the PhenoAge toolkit
(`phenoage_toolkit/biomarkers/calculator.py`,
`phenoage_toolkit/interventions/models.py`,
`phenoage_toolkit/interventions/manager.py`,
`phenoage_toolkit/percentile/calculator.py`).

Biomarker values are represented by rationals (the intervention rules use
only field arithmetic and comparisons), while the PhenoAge formula itself
is embedded over the reals, since it uses `exp` and `log`.
The intervention engine (`InterventionManager`) receives its calculator as
a constructor dependency in the source, so it is embedded parameterised by
the pheno-age function `P`; the concrete instantiation used by the toolkit
is `pheno_age` below.
-/

namespace PhenoAge

/-- Complete biomarker set: the ten canonical keys required by
`calculate_phenoage`, each bound to a value.  A value of this type models a
Python dict that contains all ten keys. -/
structure Biomarkers where
  albumin : ℚ
  creatinine : ℚ
  glucose : ℚ
  crp : ℚ
  lymphocyte : ℚ
  mcv : ℚ
  rdw : ℚ
  alkaline_phosphatase : ℚ
  wbc : ℚ
  chronological_age : ℚ
deriving DecidableEq, Repr

/-- `InterventionModels.clamp`: clamp `val` from below by `minv` and, when
`maxv` is present, from above by `maxv`. -/
def clamp (val minv : ℚ) (maxv : Option ℚ) : ℚ :=
  if val < minv then minv
  else
    match maxv with
    | some m => if m < val then m else val
    | none => val

/-- `InterventionModels.apply_exercise` (Regular Exercise). -/
def apply_exercise (biomarkers : Biomarkers) : Biomarkers :=
  let crp := biomarkers.crp
  let crp' :=
    if 3.0 ≤ crp then clamp (crp - 3.0) 0.01 none
    else if 1.0 ≤ crp then clamp (crp - 1.0) 0.01 none
    else clamp (crp - 0.2) 0.01 none
  let glu := biomarkers.glucose
  let glu' :=
    if 130 ≤ glu then clamp (glu - 15) 70 none
    else if 100 ≤ glu then clamp (glu - 7) 70 none
    else clamp (glu - 3) 70 none
  let wbc := biomarkers.wbc
  let wbc' := if 8.0 ≤ wbc then max (wbc - 1.0) 4.0 else wbc
  let lymph := biomarkers.lymphocyte
  let lymph' := if lymph < 30 then clamp (lymph + 5) 5 (some 60) else lymph
  { biomarkers with crp := crp', glucose := glu', wbc := wbc', lymphocyte := lymph' }

/-- `InterventionModels.apply_weight_loss` (Weight Loss). -/
def apply_weight_loss (biomarkers : Biomarkers) : Biomarkers :=
  let crp := biomarkers.crp
  let crp' :=
    if 5.0 ≤ crp then clamp (crp - 2.0) 0.01 none
    else if 2.0 ≤ crp then clamp (crp - 1.0) 0.01 none
    else clamp (crp - 0.2) 0.01 none
  let glu := biomarkers.glucose
  let glu' :=
    if 130 ≤ glu then clamp (glu - 20) 70 none
    else if 100 ≤ glu then clamp (glu - 10) 70 none
    else clamp (glu - 3) 70 none
  let wbc := biomarkers.wbc
  let wbc' := if 7.5 < wbc then max (wbc - 1.0) 4.0 else wbc
  { biomarkers with crp := crp', glucose := glu', wbc := wbc' }

/-- `InterventionModels.apply_low_allergen_diet` (Low Allergen Diet). -/
def apply_low_allergen_diet (biomarkers : Biomarkers) : Biomarkers :=
  let crp := biomarkers.crp
  let crp' :=
    if 3.0 ≤ crp then clamp (crp - 1.0) 0.01 none
    else if 1.0 ≤ crp then clamp (crp - 0.5) 0.01 none
    else clamp (crp - 0.2) 0.01 none
  { biomarkers with crp := crp' }

/-- `InterventionModels.apply_curcumin` (Curcumin). -/
def apply_curcumin (biomarkers : Biomarkers) : Biomarkers :=
  let crp := biomarkers.crp
  let crp' :=
    if 3.0 ≤ crp then clamp (crp - 3.7) 0.01 none
    else if 1.0 ≤ crp then clamp (crp - 1.0) 0.01 none
    else clamp (crp - 0.2) 0.01 none
  { biomarkers with crp := crp' }

/-- `InterventionModels.apply_omega3` (Omega-3). -/
def apply_omega3 (biomarkers : Biomarkers) : Biomarkers :=
  let crp := biomarkers.crp
  let crp' :=
    if 5.0 ≤ crp then clamp (crp - 3.0) 0.01 none
    else if 1.0 ≤ crp then clamp (crp - 1.0) 0.01 none
    else clamp (crp - 0.3) 0.01 none
  let wbc := biomarkers.wbc
  let wbc' := if 8.0 ≤ wbc then max (wbc - 0.8) 4.0 else wbc
  let albumin := biomarkers.albumin
  let albumin' := if albumin < 4.0 then min (albumin + 0.2) 5.0 else albumin
  let lymph := biomarkers.lymphocyte
  let lymph' := if lymph < 30 then clamp (lymph + 3) 5 (some 60) else lymph
  { biomarkers with crp := crp', wbc := wbc', albumin := albumin', lymphocyte := lymph' }

/-- `InterventionModels.apply_taurine` (Taurine). -/
def apply_taurine (biomarkers : Biomarkers) : Biomarkers :=
  let crp := biomarkers.crp
  let crp' :=
    if 3.0 ≤ crp then clamp (crp - 1.0) 0.01 none
    else if 1.0 ≤ crp then clamp (crp - 0.4) 0.01 none
    else clamp (crp - 0.1) 0.01 none
  { biomarkers with crp := crp' }

/-- `InterventionModels.apply_high_protein_diet` (High Protein Intake). -/
def apply_high_protein_diet (biomarkers : Biomarkers) : Biomarkers :=
  let alb := biomarkers.albumin
  if alb < 4.0 then { biomarkers with albumin := min (alb + 0.3) 5.0 } else biomarkers

/-- `InterventionModels.apply_reduce_alcohol` (Reduce Alcohol). -/
def apply_reduce_alcohol (biomarkers : Biomarkers) : Biomarkers :=
  let alb := biomarkers.albumin
  let alp := biomarkers.alkaline_phosphatase
  let alb' := if alb < 4.0 then min (alb + 0.5) 5.0 else alb
  let alp' :=
    if 120 < alp then max (alp - 40) 50
    else if 100 < alp then max (alp - 20) 50
    else alp
  { biomarkers with albumin := alb', alkaline_phosphatase := alp' }

/-- `InterventionModels.apply_stop_creatine` (Stop Creatine Supplementation). -/
def apply_stop_creatine (biomarkers : Biomarkers) : Biomarkers :=
  { biomarkers with creatinine := max (biomarkers.creatinine - 0.25) 0.6 }

/-- `InterventionModels.apply_reduce_red_meat` (Reduce Red Meat Intake). -/
def apply_reduce_red_meat (biomarkers : Biomarkers) : Biomarkers :=
  let creat := biomarkers.creatinine
  if 1.2 ≤ creat then { biomarkers with creatinine := max (creat - 0.3) 0.6 }
  else { biomarkers with creatinine := max (creat - 0.1) 0.6 }

/-- `InterventionModels.apply_reduce_sodium` (Reduce Sodium). -/
def apply_reduce_sodium (biomarkers : Biomarkers) : Biomarkers :=
  let creat := biomarkers.creatinine
  if 1.2 ≤ creat then { biomarkers with creatinine := max (creat - 0.2) 0.6 }
  else { biomarkers with creatinine := max (creat - 0.1) 0.6 }

/-- `InterventionModels.apply_avoid_nsaids` (Avoid NSAIDs). -/
def apply_avoid_nsaids (biomarkers : Biomarkers) : Biomarkers :=
  { biomarkers with creatinine := max (biomarkers.creatinine - 0.2) 0.6 }

/-- `InterventionModels.apply_avoid_heavy_exercise` (Avoid Very Heavy Exercise). -/
def apply_avoid_heavy_exercise (biomarkers : Biomarkers) : Biomarkers :=
  let alp := biomarkers.alkaline_phosphatase
  if 100 < alp then { biomarkers with alkaline_phosphatase := max (alp * 0.85) 50 }
  else { biomarkers with alkaline_phosphatase := max (alp - 5) 30 }

/-- `InterventionModels.apply_milk_thistle` (Milk Thistle). -/
def apply_milk_thistle (biomarkers : Biomarkers) : Biomarkers :=
  let alp := biomarkers.alkaline_phosphatase
  if 130 ≤ alp then { biomarkers with alkaline_phosphatase := max (alp - 30) 50 }
  else if 100 ≤ alp then { biomarkers with alkaline_phosphatase := max (alp - 20) 50 }
  else biomarkers

/-- `InterventionModels.apply_nac` (NAC). -/
def apply_nac (biomarkers : Biomarkers) : Biomarkers :=
  let alp := biomarkers.alkaline_phosphatase
  if 120 ≤ alp then { biomarkers with alkaline_phosphatase := max (alp * 0.85) 50 }
  else if 100 ≤ alp then { biomarkers with alkaline_phosphatase := max (alp * 0.90) 50 }
  else biomarkers

/-- `InterventionModels.apply_carb_fat_restriction` (Carb and Fat Restriction). -/
def apply_carb_fat_restriction (biomarkers : Biomarkers) : Biomarkers :=
  let glu := biomarkers.glucose
  let glu' :=
    if 130 ≤ glu then clamp (glu - 15) 70 none
    else if 100 ≤ glu then clamp (glu - 10) 70 none
    else clamp (glu - 3) 70 none
  { biomarkers with glucose := glu' }

/-- `InterventionModels.apply_postmeal_walk` (Walking After Meals). -/
def apply_postmeal_walk (biomarkers : Biomarkers) : Biomarkers :=
  let glu := biomarkers.glucose
  let glu' := if 100 < glu then clamp (glu - 5) 70 none else clamp (glu - 2) 70 none
  { biomarkers with glucose := glu' }

/-- `InterventionModels.apply_sauna` (Sauna). -/
def apply_sauna (biomarkers : Biomarkers) : Biomarkers :=
  let glu := biomarkers.glucose
  let glu' := clamp (glu - 4) 70 none
  let wbc := biomarkers.wbc
  let wbc' := if wbc < 4.0 then wbc + 0.5 else wbc
  let lymph := biomarkers.lymphocyte
  let lymph' := if lymph < 30 then clamp (lymph + 5) 5 (some 60) else lymph
  { biomarkers with glucose := glu', wbc := wbc', lymphocyte := lymph' }

/-- `InterventionModels.apply_berberine` (Berberine). -/
def apply_berberine (biomarkers : Biomarkers) : Biomarkers :=
  let glu := biomarkers.glucose
  let glu' :=
    if 130 ≤ glu then clamp (glu - 15) 70 none
    else if 100 ≤ glu then clamp (glu - 10) 70 none
    else clamp (glu - 3) 70 none
  { biomarkers with glucose := glu' }

/-- `InterventionModels.apply_vitb1` (Vitamin B1). -/
def apply_vitb1 (biomarkers : Biomarkers) : Biomarkers :=
  let glu := biomarkers.glucose
  if 130 ≤ glu then { biomarkers with glucose := clamp (glu - 10) 70 none }
  else if 100 ≤ glu then { biomarkers with glucose := clamp (glu - 5) 70 none }
  else biomarkers

/-- `InterventionModels.apply_olive_oil` (Olive Oil). -/
def apply_olive_oil (biomarkers : Biomarkers) : Biomarkers :=
  let lymph := biomarkers.lymphocyte
  if lymph < 35 then { biomarkers with lymphocyte := clamp (lymph + 3) 5 (some 60) }
  else biomarkers

/-- `InterventionModels.apply_mushrooms` (Mushrooms). -/
def apply_mushrooms (biomarkers : Biomarkers) : Biomarkers :=
  let lymph := biomarkers.lymphocyte
  let lymph' := if lymph < 35 then clamp (lymph + 7) 5 (some 60) else lymph
  let wbc := biomarkers.wbc
  let wbc' := if wbc < 4.0 then wbc + 0.8 else wbc
  { biomarkers with lymphocyte := lymph', wbc := wbc' }

/-- `InterventionModels.apply_zinc` (Zinc Supplementation). -/
def apply_zinc (biomarkers : Biomarkers) : Biomarkers :=
  let wbc := biomarkers.wbc
  let wbc' := if wbc < 4.0 then wbc + 0.5 else wbc
  let lymph := biomarkers.lymphocyte
  let lymph' := if lymph < 30 then clamp (lymph + 5) 5 (some 60) else lymph
  { biomarkers with wbc := wbc', lymphocyte := lymph' }

/-- `InterventionModels.apply_bcomplex` (B-Complex). -/
def apply_bcomplex (biomarkers : Biomarkers) : Biomarkers :=
  let rdw := biomarkers.rdw
  let rdw' := if 18.0 ≤ rdw then 14.0 else if 15.0 ≤ rdw then 13.5 else rdw
  let mcv := biomarkers.mcv
  let mcv' := if 100 ≤ mcv then max (mcv - 10) 80 else mcv
  { biomarkers with rdw := rdw', mcv := mcv' }

/-- `InterventionModels.apply_balanced_diet` (Well-Balanced Diet). -/
def apply_balanced_diet (biomarkers : Biomarkers) : Biomarkers :=
  let alb := biomarkers.albumin
  let alb' := if alb < 4.0 then min (alb + 0.5) 5.0 else alb
  let mcv := biomarkers.mcv
  let mcv' :=
    if mcv < 80 then min (mcv + 5) 80
    else if 100 < mcv then max (mcv - 5) 100
    else mcv
  let crp := biomarkers.crp
  let crp' := clamp (crp - 0.3) 0.01 none
  { biomarkers with albumin := alb', mcv := mcv', crp := crp' }

/-- `InterventionManager.get_interventions`: the fixed ordered catalog of the
25 named intervention rules. -/
def get_interventions : List (String × (Biomarkers → Biomarkers)) :=
  [ ("Regular Exercise", apply_exercise),
    ("Weight Loss", apply_weight_loss),
    ("Low Allergen Diet", apply_low_allergen_diet),
    ("Curcumin (500 mg/day)", apply_curcumin),
    ("Omega-3 (1.5–3 g/day)", apply_omega3),
    ("Taurine (3–6 g/day)", apply_taurine),
    ("High Protein Intake", apply_high_protein_diet),
    ("Well-Balanced Diet", apply_balanced_diet),
    ("Reduce Alcohol", apply_reduce_alcohol),
    ("Stop Creatine Supplementation", apply_stop_creatine),
    ("Reduce Red Meat Intake", apply_reduce_red_meat),
    ("Reduce Sodium", apply_reduce_sodium),
    ("Avoid NSAIDs", apply_avoid_nsaids),
    ("Avoid Very Heavy Exercise", apply_avoid_heavy_exercise),
    ("Milk Thistle (1 g/day)", apply_milk_thistle),
    ("NAC (1–2 g/day)", apply_nac),
    ("Carb & Fat Restriction", apply_carb_fat_restriction),
    ("Walking After Meals", apply_postmeal_walk),
    ("Sauna", apply_sauna),
    ("Berberine (500–1000 mg/day)", apply_berberine),
    ("Vitamin B1 (100 mg/day)", apply_vitb1),
    ("Olive Oil (Med Diet)", apply_olive_oil),
    ("Mushrooms (Beta-Glucans)", apply_mushrooms),
    ("Zinc Supplementation", apply_zinc),
    ("B-Complex (B12/Folate)", apply_bcomplex) ]

/-- Required biomarkers checked at the top of
`AgeClockCalculator.calculate_phenoage`. -/
def required_biomarkers : List String :=
  [ ("albumin"), ("creatinine"), ("glucose"), ("crp"), ("lymphocyte"),
    ("mcv"), ("rdw"), ("alkaline_phosphatase"), ("wbc"), ("chronological_age") ]

/-- `AgeClockCalculator.expected_units`: expected unit for each required
biomarker, used when building the missing-biomarker error message. -/
def expected_units : String → String
  | "albumin" => "g/dL"
  | "creatinine" => "mg/dL"
  | "glucose" => "mg/dL"
  | "crp" => "mg/L"
  | "lymphocyte" => "%"
  | "mcv" => "fL"
  | "rdw" => "%"
  | "alkaline_phosphatase" => "U/L"
  | "wbc" => "10^3 cells/µL"
  | "chronological_age" => "years"
  | _ => ""

/-- CRP value fed to the logarithm in `calculate_phenoage`: `crp * 0.1`
(mg/L to mg/dL), replaced by `0.000001` when it is not positive. -/
def crp_for_calc (crp : ℚ) : ℚ :=
  if crp * 0.1 ≤ 0 then 0.000001 else crp * 0.1

/-- Linear combination of unit-converted biomarkers with the fixed PhenoAge
weights plus the intercept `-19.9067`, as computed in `calculate_phenoage`. -/
noncomputable def lin_comb (b : Biomarkers) : ℝ :=
  ((b.albumin : ℝ) * 10) * (-0.0336) +
  ((b.creatinine : ℝ) * 88.4) * 0.0095 +
  ((b.glucose : ℝ) * 0.0555) * 0.1953 +
  Real.log ((crp_for_calc b.crp : ℚ) : ℝ) * 0.0954 +
  (b.lymphocyte : ℝ) * (-0.0120) +
  (b.mcv : ℝ) * 0.0268 +
  (b.rdw : ℝ) * 0.3306 +
  (b.alkaline_phosphatase : ℝ) * 0.0019 +
  (b.wbc : ℝ) * 0.0554 +
  (b.chronological_age : ℝ) * 0.0804 +
  (-19.9067)

/-- Mortality score
`1 - exp(-exp(lin_comb) * (exp(g*t) - 1) / g)` with `t = 120`, `g = 0.0076927`. -/
noncomputable def mort_score (b : Biomarkers) : ℝ :=
  1 - Real.exp (-Real.exp (lin_comb b) * (Real.exp (0.0076927 * 120) - 1) / 0.0076927)

/-- Phenotypic age `141.50225 + ln(-0.00553 * ln(1 - mort_score)) / 0.090165`. -/
noncomputable def pheno_age (b : Biomarkers) : ℝ :=
  141.50225 + Real.log (-0.00553 * Real.log (1 - mort_score b)) / 0.090165

/-- Estimated DNAm age
`pheno_age / (1 + 1.28047 * exp(0.0344329 * (-182.344 + pheno_age)))`. -/
noncomputable def est_dnam_age (b : Biomarkers) : ℝ :=
  pheno_age b / (1 + 1.28047 * Real.exp (0.0344329 * (-182.344 + pheno_age b)))

/-- Estimated secondary mortality score
`1 - exp(-0.000520363523 * exp(0.090165 * est_dnam_age))`. -/
noncomputable def est_d_mscore (b : Biomarkers) : ℝ :=
  1 - Real.exp (-0.000520363523 * Real.exp (0.090165 * est_dnam_age b))

/-- Result record of `calculate_phenoage` (the Python function additionally
echoes the raw and converted inputs; `crp_converted` is the one converted
value a claim refers to). -/
structure PhenoAgeResult where
  lin_comb : ℝ
  mort_score : ℝ
  pheno_age : ℝ
  est_dnam_age : ℝ
  est_d_mscore : ℝ
  crp_converted : ℝ

/-- Main metrics of `calculate_phenoage` on a complete biomarker set. -/
noncomputable def phenoage_core (b : Biomarkers) : PhenoAgeResult where
  lin_comb := lin_comb b
  mort_score := mort_score b
  pheno_age := pheno_age b
  est_dnam_age := est_dnam_age b
  est_d_mscore := est_d_mscore b
  crp_converted := Real.log ((crp_for_calc b.crp : ℚ) : ℝ)

/-- Input to the validating calculator: a Python dict of biomarker values,
modelled as an association list from key to value (extra keys allowed). -/
def BiomarkerData : Type := List (String × ℚ)

/-- Formatted entries of the missing-biomarker list built by the loop at the
top of `calculate_phenoage`. -/
def missing_biomarkers (data : BiomarkerData) : List String :=
  required_biomarkers.filterMap fun k =>
    if (List.lookup k data).isNone then some (k ++ " (" ++ expected_units k ++ ")")
    else none

/-- Field extraction performed by `calculate_phenoage` once the required keys
are known to be present (the default `0` is never used on the success path). -/
def extract_biomarkers (data : BiomarkerData) : Biomarkers where
  albumin := (List.lookup ("albumin") data).getD 0
  creatinine := (List.lookup ("creatinine") data).getD 0
  glucose := (List.lookup ("glucose") data).getD 0
  crp := (List.lookup ("crp") data).getD 0
  lymphocyte := (List.lookup ("lymphocyte") data).getD 0
  mcv := (List.lookup ("mcv") data).getD 0
  rdw := (List.lookup ("rdw") data).getD 0
  alkaline_phosphatase := (List.lookup ("alkaline_phosphatase") data).getD 0
  wbc := (List.lookup ("wbc") data).getD 0
  chronological_age := (List.lookup ("chronological_age") data).getD 0

/-- `AgeClockCalculator.calculate_phenoage`: validate that the ten required
keys are present (raising `ValueError` with the formatted list otherwise),
then compute the PhenoAge metrics. -/
noncomputable def calculate_phenoage (data : BiomarkerData) :
    Except String PhenoAgeResult :=
  if missing_biomarkers data ≠ [] then
    .error ("Missing required biomarkers: " ++
      String.intercalate ", " (missing_biomarkers data))
  else
    .ok (phenoage_core (extract_biomarkers data))

/-- Entry of the list returned by `InterventionManager.rank_interventions`. -/
structure RankingEntry (α : Type*) where
  intervention : String
  base_pheno_age : α
  new_pheno_age : α
  delta : α

/-- Result record of `InterventionManager.simulate_combined_interventions`. -/
structure SimulationResult (α : Type*) where
  original_biomarkers : Biomarkers
  updated_biomarkers : Biomarkers
  original_pheno_age : α
  new_pheno_age : α
  delta : α
  applied_interventions : List String

/-- Dict `intervention_map` built in `simulate_combined_interventions`:
name-keyed lookup into the catalog (names are unique in the catalog). -/
def intervention_map (name : String) : Option (Biomarkers → Biomarkers) :=
  (get_interventions.find? fun item => item.1 == name).map fun item => item.2

/-- `InterventionManager.rank_interventions`: apply each catalog rule
independently to a copy of the original biomarkers, recompute the pheno age,
and sort ascending by delta (Python `list.sort` is stable).  The manager is
parameterised by its calculator `P` (constructor dependency in the source). -/
def rank_interventions {α : Type*} [LinearOrderedField α]
    (P : Biomarkers → α) (bm : Biomarkers) : List (RankingEntry α) :=
  let base := P bm
  let ranking := get_interventions.map fun item =>
    { intervention := item.1
      base_pheno_age := base
      new_pheno_age := P (item.2 bm)
      delta := P (item.2 bm) - base : RankingEntry α }
  ranking.mergeSort fun a b => decide (a.delta ≤ b.delta)

/-- Individual intervention deltas computed by the first loop of
`simulate_combined_interventions` (names missing from the catalog are
skipped). -/
def individual_effects {α : Type*} [LinearOrderedField α]
    (P : Biomarkers → α) (bm : Biomarkers) (names : List String) : List α :=
  names.filterMap fun n => (intervention_map n).map fun fn => P (fn bm) - P bm

/-- Sequential application loop of `simulate_combined_interventions`: apply
each named rule to the working biomarker set in order, recording applied
names, and fail on the first name missing from the catalog. -/
def apply_loop (updated : Biomarkers) (applied : List String) :
    List String → Except String (Biomarkers × List String)
  | [] => .ok (updated, applied)
  | n :: rest =>
    match intervention_map n with
    | some fn => apply_loop (fn updated) (applied ++ [n]) rest
    | none => .error ("Unknown intervention: " ++ n)

/-- Sequential application of the catalog rules named in `names` (unknown
names act as the identity); describes the working set built by `apply_loop`
on its success path. -/
def seq_apply (bm : Biomarkers) (names : List String) : Biomarkers :=
  names.foldl (fun b n => ((intervention_map n).getD id) b) bm

/-- `InterventionManager.simulate_combined_interventions`: compute the
baseline, the isolated effect of each requested rule, then apply the rules
sequentially; when more than one rule was applied, override the reported
final pheno age with `base + strongest * 2.2` whenever the sequential delta
is weaker than that target. -/
def simulate_combined_interventions {α : Type*} [LinearOrderedField α]
    (P : Biomarkers → α) (bm : Biomarkers) (names : List String) :
    Except String (SimulationResult α) :=
  let base := P bm
  let effects := individual_effects P bm names
  match apply_loop bm [] names with
  | .error e => .error e
  | .ok (updated, applied) =>
    let seqPheno := P updated
    let newPheno :=
      if 1 < applied.length ∧ effects ≠ [] then
        match effects.mergeSort (fun a b => decide (a ≤ b)) with
        | [] => seqPheno
        | strongest :: _ =>
          let target := strongest * 2.2
          if target < seqPheno - base then base + target else seqPheno
      else seqPheno
    .ok { original_biomarkers := bm
          updated_biomarkers := updated
          original_pheno_age := base
          new_pheno_age := newPheno
          delta := newPheno - base
          applied_interventions := applied }

/-- Reference table returned by `get_reference_values` (dict keyed by
percentile labels in the source). -/
structure ReferenceValues where
  tenth : ℝ
  twentyfifth : ℝ
  fiftieth : ℝ
  seventyfifth : ℝ
  ninetieth : ℝ

/-- `percentile.calculator.get_reference_values`: reference phenotypic ages
at a chronological age, `chronological_age + 5.5 * ppf q`.  The standard
normal quantile `ppf` comes from an external stats library in the source, so
it is a parameter here. -/
def get_reference_values (ppf : ℝ → ℝ) (chronological_age : ℝ) : ReferenceValues where
  tenth := chronological_age + 5.5 * ppf 0.9
  twentyfifth := chronological_age + 5.5 * ppf 0.75
  fiftieth := chronological_age
  seventyfifth := chronological_age + 5.5 * ppf 0.25
  ninetieth := chronological_age + 5.5 * ppf 0.1

/-- Positive constant `(exp(g*t) - 1) / g` appearing in the mortality score. -/
noncomputable def gamma_c : ℝ := (Real.exp (0.0076927 * 120) - 1) / 0.0076927

/-- Concrete biomarker set used to analyse the pair Sauna + Zinc: glucose at
the `70` floor, lymphocyte in the no-change band, `wbc` low. -/
def cex_biomarkers : Biomarkers where
  albumin := 4.2
  creatinine := 0.9
  glucose := 70
  crp := 0.5
  lymphocyte := 40
  mcv := 88
  rdw := 12.9
  alkaline_phosphatase := 62
  wbc := 3
  chronological_age := 40

/-- Biomarker set reached from `cex_biomarkers` by either Sauna or Zinc. -/
def cex_after_one : Biomarkers where
  albumin := 4.2
  creatinine := 0.9
  glucose := 70
  crp := 0.5
  lymphocyte := 40
  mcv := 88
  rdw := 12.9
  alkaline_phosphatase := 62
  wbc := 3.5
  chronological_age := 40

/-- Biomarker set reached from `cex_biomarkers` by Sauna followed by Zinc. -/
def cex_after_two : Biomarkers where
  albumin := 4.2
  creatinine := 0.9
  glucose := 70
  crp := 0.5
  lymphocyte := 40
  mcv := 88
  rdw := 12.9
  alkaline_phosphatase := 62
  wbc := 4
  chronological_age := 40

/-- Sample biomarker set for concrete instantiations. -/
def sample_bm : Biomarkers where
  albumin := 4.2
  creatinine := 0.9
  glucose := 100
  crp := 0.5
  lymphocyte := 40
  mcv := 88
  rdw := 12.9
  alkaline_phosphatase := 62
  wbc := 3
  chronological_age := 40

/-- Sample (rational-valued) calculator used to instantiate the engine in
concrete checks. -/
def sample_P : Biomarkers → ℚ := fun b => b.glucose

/-- Sample biomarker set with `crp = 0`. -/
def sample_crp0 : Biomarkers where
  albumin := 4.2
  creatinine := 0.9
  glucose := 85
  crp := 0
  lymphocyte := 32
  mcv := 88
  rdw := 12.9
  alkaline_phosphatase := 62
  wbc := 5.2
  chronological_age := 40


/-! ## Helper lemmas -/

theorem mergeSort_pair {α : Type*} (le : α → α → Bool) (a b : α) :
    [a, b].mergeSort le = if le a b then [a, b] else [b, a] := by
  rw [List.mergeSort]
  simp [List.splitInTwo, List.merge]

theorem apply_loop_append_known (bm : Biomarkers) (acc pre rest : List String)
    (hpre : ∀ n ∈ pre, (intervention_map n).isSome) :
    apply_loop bm acc (pre ++ rest) = apply_loop (seq_apply bm pre) (acc ++ pre) rest := by
  induction pre generalizing bm acc with
  | nil => simp [seq_apply]
  | cons n pre ih =>
    obtain ⟨fn, hfn⟩ := Option.isSome_iff_exists.mp (hpre n (by simp))
    rw [List.cons_append, apply_loop, hfn]
    show apply_loop (fn bm) (acc ++ [n]) (pre ++ rest) = _
    rw [ih (fn bm) (acc ++ [n]) (fun m hm => hpre m (by simp [hm]))]
    simp [seq_apply, hfn]

theorem apply_loop_known (bm : Biomarkers) (names : List String)
    (h : ∀ n ∈ names, (intervention_map n).isSome) :
    apply_loop bm [] names = .ok (seq_apply bm names, names) := by
  have h2 := apply_loop_append_known bm [] names [] h
  simpa [apply_loop] using h2

theorem individual_effects_known {α : Type*} [LinearOrderedField α]
    (P : Biomarkers → α) (bm : Biomarkers) (names : List String)
    (h : ∀ n ∈ names, (intervention_map n).isSome) :
    individual_effects P bm names =
      names.map fun n => P (((intervention_map n).getD id) bm) - P bm := by
  induction names with
  | nil => simp [individual_effects]
  | cons n names ih =>
    obtain ⟨fn, hfn⟩ := Option.isSome_iff_exists.mp (h n (by simp))
    have ih2 := ih (fun m hm => h m (by simp [hm]))
    simp only [individual_effects, List.filterMap_cons, hfn, Option.map_some', List.map_cons] at *
    simp [hfn, ih2]

theorem exists_head_mergeSort {α : Type*} [LinearOrderedField α]
    (l : List α) (hne : l ≠ []) :
    ∃ s t, l.mergeSort (fun a b => decide (a ≤ b)) = s :: t ∧ s ∈ l ∧ ∀ d ∈ l, s ≤ d := by
  have htrans : ∀ (a b c : α), (decide (a ≤ b)) → (decide (b ≤ c)) → (decide (a ≤ c)) := by
    intro a b c hab hbc
    simp only [decide_eq_true_eq] at *
    exact le_trans hab hbc
  have htotal : ∀ (a b : α), (decide (a ≤ b)) || (decide (b ≤ a)) := by
    intro a b
    simpa using le_total a b
  obtain ⟨s, t, hst⟩ : ∃ s t, l.mergeSort (fun a b => decide (a ≤ b)) = s :: t := by
    cases hm : l.mergeSort (fun a b => decide (a ≤ b)) with
    | nil =>
      exfalso
      have hl := @List.length_mergeSort α (fun a b : α => decide (a ≤ b)) l
      rw [hm] at hl
      exact hne (List.length_eq_zero.mp hl.symm)
    | cons s t => exact ⟨s, t, rfl⟩
  refine ⟨s, t, hst, ?_, ?_⟩
  · have hs : s ∈ l.mergeSort (fun a b => decide (a ≤ b)) := by rw [hst]; simp
    exact List.mem_mergeSort.mp hs
  · intro d hd
    have hd' : d ∈ l.mergeSort (fun a b => decide (a ≤ b)) := List.mem_mergeSort.mpr hd
    have hsorted := List.sorted_mergeSort htrans htotal l
    rw [hst] at hsorted hd'
    rcases List.mem_cons.mp hd' with h | h
    · exact h ▸ le_refl s
    · have hle := (List.pairwise_cons.mp hsorted).1 d h
      simpa using hle

theorem catalog_names_nodup : (get_interventions.map Prod.fst).Nodup := by
  decide

theorem intervention_map_mem {n : String} {fn : Biomarkers → Biomarkers}
    (h : intervention_map n = some fn) :
    ∀ item ∈ get_interventions, item.1 = n → item.2 = fn := by
  intro item hmem hname
  unfold intervention_map at h
  obtain ⟨it, hfind, hit2⟩ : ∃ it, get_interventions.find? (fun x => x.1 == n) = some it ∧ it.2 = fn := by
    cases hf : get_interventions.find? (fun x => x.1 == n) with
    | none => rw [hf] at h; simp at h
    | some it => rw [hf] at h; simp at h; exact ⟨it, rfl, h⟩
  have hit_mem : it ∈ get_interventions := List.mem_of_find?_eq_some hfind
  have hit_name : it.1 = n := by
    have hp := List.find?_some hfind
    simpa using hp
  have heq : item = it :=
    List.inj_on_of_nodup_map catalog_names_nodup hmem hit_mem (by rw [hit_name, hname])
  rw [heq, hit2]

theorem clamp_none_eq_max (v m : ℚ) : clamp v m none = max v m := by
  unfold clamp
  rcases lt_or_le v m with h | h
  · rw [if_pos h]
    exact (max_eq_right (le_of_lt h)).symm
  · rw [if_neg (not_lt.mpr h)]
    exact (max_eq_left h).symm

theorem clamp_some_eq_min_max (v lo hi : ℚ) (h : lo ≤ hi) :
    clamp v lo (some hi) = min (max v lo) hi := by
  unfold clamp
  rcases lt_or_le v lo with h1 | h1
  · rw [if_pos h1, max_eq_right (le_of_lt h1), min_eq_left h]
  · rw [if_neg (not_lt.mpr h1), max_eq_left h1]
    show (if hi < v then hi else v) = min v hi
    rcases lt_or_le hi v with h2 | h2
    · rw [if_pos h2, min_eq_right (le_of_lt h2)]
    · rw [if_neg (not_lt.mpr h2), min_eq_left h2]

theorem gamma_c_pos : 0 < gamma_c := by
  have h1 : (1:ℝ) < Real.exp (0.0076927 * 120) := by
    rw [show (1:ℝ) = Real.exp 0 by simp]
    exact Real.exp_lt_exp.mpr (by norm_num)
  unfold gamma_c
  apply div_pos <;> [linarith; norm_num]

theorem one_sub_mort_score (b : Biomarkers) :
    1 - mort_score b = Real.exp (-(Real.exp (lin_comb b) * gamma_c)) := by
  unfold mort_score gamma_c
  ring_nf

theorem log_one_sub_mort_score (b : Biomarkers) :
    Real.log (1 - mort_score b) = -(Real.exp (lin_comb b) * gamma_c) := by
  rw [one_sub_mort_score, Real.log_exp]

theorem mort_score_lt_one (b : Biomarkers) : mort_score b < 1 := by
  have h := Real.exp_pos (-(Real.exp (lin_comb b) * gamma_c))
  have h2 := one_sub_mort_score b
  linarith

theorem log_arg_pos (b : Biomarkers) :
    0 < -0.00553 * Real.log (1 - mort_score b) := by
  rw [log_one_sub_mort_score]
  have h1 := Real.exp_pos (lin_comb b)
  have h2 := gamma_c_pos
  nlinarith

theorem pheno_age_eq (b : Biomarkers) :
    pheno_age b = 141.50225 +
      (Real.log (0.00553 * gamma_c) + lin_comb b) / 0.090165 := by
  unfold pheno_age
  rw [log_one_sub_mort_score]
  rw [show (-0.00553:ℝ) * -(Real.exp (lin_comb b) * gamma_c) =
      0.00553 * gamma_c * Real.exp (lin_comb b) by ring]
  rw [Real.log_mul (ne_of_gt (mul_pos (by norm_num) gamma_c_pos)) (Real.exp_ne_zero _)]
  rw [Real.log_exp]

theorem pheno_age_sub (b1 b2 : Biomarkers) :
    pheno_age b1 - pheno_age b2 = (lin_comb b1 - lin_comb b2) / 0.090165 := by
  rw [pheno_age_eq, pheno_age_eq]
  ring

theorem filterMap_ite_eq_filter_map {β γ : Type*} (p : β → Bool) (f : β → γ) (l : List β) :
    (l.filterMap fun k => if p k then some (f k) else none) = (l.filter p).map f := by
  induction l with
  | nil => rfl
  | cons x l ih =>
    by_cases hx : p x <;> simp [List.filterMap_cons, List.filter_cons, hx, ih]

theorem missing_biomarkers_eq (data : BiomarkerData) :
    missing_biomarkers data =
      (required_biomarkers.filter fun k => (List.lookup k data).isNone).map
        fun k => k ++ " (" ++ expected_units k ++ ")" := by
  unfold missing_biomarkers
  exact filterMap_ite_eq_filter_map _ _ _

theorem cex_sauna : apply_sauna cex_biomarkers = cex_after_one := by
  simp only [apply_sauna, cex_biomarkers, cex_after_one, clamp]
  norm_num

theorem cex_zinc : apply_zinc cex_biomarkers = cex_after_one := by
  simp only [apply_zinc, cex_biomarkers, cex_after_one, clamp]
  norm_num

theorem cex_zinc2 : apply_zinc cex_after_one = cex_after_two := by
  simp only [apply_zinc, cex_after_one, cex_after_two, clamp]
  norm_num

theorem cex_lookup_sauna : intervention_map ("Sauna") = some apply_sauna := by rfl

theorem cex_lookup_zinc : intervention_map ("Zinc Supplementation") = some apply_zinc := by rfl

theorem cex_lin_one : lin_comb cex_after_one - lin_comb cex_biomarkers = 0.0277 := by
  simp only [lin_comb, cex_after_one, cex_biomarkers, crp_for_calc]
  norm_num

theorem cex_lin_two : lin_comb cex_after_two - lin_comb cex_biomarkers = 0.0554 := by
  simp only [lin_comb, cex_after_two, cex_biomarkers, crp_for_calc]
  norm_num

theorem cex_d_one :
    pheno_age cex_after_one - pheno_age cex_biomarkers = 0.0277 / 0.090165 := by
  rw [pheno_age_sub, cex_lin_one]

theorem cex_d_two :
    pheno_age cex_after_two - pheno_age cex_biomarkers = 0.0554 / 0.090165 := by
  rw [pheno_age_sub, cex_lin_two]

/-- Evaluation of `simulate_combined_interventions` on a request made of two
catalog names. -/
theorem simulate_combined_pair {α : Type*} [LinearOrderedField α]
    (P : Biomarkers → α) (bm : Biomarkers) (n1 n2 : String)
    (f1 f2 : Biomarkers → Biomarkers)
    (h1 : intervention_map n1 = some f1) (h2 : intervention_map n2 = some f2) :
    simulate_combined_interventions P bm [n1, n2] = .ok
      { original_biomarkers := bm
        updated_biomarkers := f2 (f1 bm)
        original_pheno_age := P bm
        new_pheno_age :=
          if min (P (f1 bm) - P bm) (P (f2 bm) - P bm) * 2.2 < P (f2 (f1 bm)) - P bm
          then P bm + min (P (f1 bm) - P bm) (P (f2 bm) - P bm) * 2.2
          else P (f2 (f1 bm))
        delta :=
          (if min (P (f1 bm) - P bm) (P (f2 bm) - P bm) * 2.2 < P (f2 (f1 bm)) - P bm
           then P bm + min (P (f1 bm) - P bm) (P (f2 bm) - P bm) * 2.2
           else P (f2 (f1 bm))) - P bm
        applied_interventions := [n1, n2] } := by
  have hloop : apply_loop bm [] [n1, n2] = .ok (f2 (f1 bm), [n1, n2]) := by
    rw [apply_loop, h1]
    show apply_loop (f1 bm) ([] ++ [n1]) [n2] = _
    rw [apply_loop, h2]
    rfl
  have heff : individual_effects P bm [n1, n2] =
      [P (f1 bm) - P bm, P (f2 bm) - P bm] := by
    simp [individual_effects, h1, h2]
  have hcond : 1 < List.length [n1, n2] ∧ individual_effects P bm [n1, n2] ≠ [] := by
    constructor
    · norm_num
    · rw [heff]; simp
  simp only [simulate_combined_interventions, hloop]
  rw [if_pos hcond, heff, mergeSort_pair]
  rcases le_total (P (f1 bm) - P bm) (P (f2 bm) - P bm) with hc | hc
  · rw [if_pos (by simpa using hc), min_eq_left hc]
  · rw [min_eq_right hc]
    rcases eq_or_lt_of_le hc with heq | hlt
    · rw [heq]
      rw [if_pos (by simp)]
    · rw [if_neg (by simpa using not_le.mpr hlt)]

/-! ## Claim theorems -/

/-- C1: for every complete biomarker set and every list of two or more
catalog intervention names, `simulate_combined_interventions` succeeds; its
`updated_biomarkers` is the literal sequential application of the rules, and
its reported new phenotypic age equals `baseline + 2.2 * s`, where `s` is
the most negative isolated delta, exactly when the raw sequential delta is
greater than `2.2 * s`, and is the raw sequential pheno age otherwise; the
snapshot is unaffected by the override. -/
theorem simulate_combined_synergy_override {α : Type*} [LinearOrderedField α]
    (P : Biomarkers → α) (bm : Biomarkers) (names : List String)
    (hlen : 2 ≤ names.length)
    (hknown : ∀ n ∈ names, (intervention_map n).isSome) :
    ∃ r, simulate_combined_interventions P bm names = .ok r ∧
      r.original_biomarkers = bm ∧
      r.updated_biomarkers = seq_apply bm names ∧
      r.original_pheno_age = P bm ∧
      r.applied_interventions = names ∧
      ∃ s, s ∈ individual_effects P bm names ∧
        (∀ d ∈ individual_effects P bm names, s ≤ d) ∧
        r.new_pheno_age =
          (if s * 2.2 < P (seq_apply bm names) - P bm then P bm + s * 2.2
           else P (seq_apply bm names)) ∧
        r.delta = r.new_pheno_age - P bm := by
  have hloop := apply_loop_known bm names hknown
  have hne : individual_effects P bm names ≠ [] := by
    rw [individual_effects_known P bm names hknown]
    simp only [ne_eq, List.map_eq_nil_iff]
    intro hnil
    rw [hnil] at hlen
    simp at hlen
  obtain ⟨s, t, hsort, hmem, hmin⟩ := exists_head_mergeSort _ hne
  have hcond : 1 < names.length ∧ individual_effects P bm names ≠ [] :=
    ⟨hlen, hne⟩
  refine ⟨{ original_biomarkers := bm
            updated_biomarkers := seq_apply bm names
            original_pheno_age := P bm
            new_pheno_age :=
              if s * 2.2 < P (seq_apply bm names) - P bm then P bm + s * 2.2
              else P (seq_apply bm names)
            delta :=
              (if s * 2.2 < P (seq_apply bm names) - P bm then P bm + s * 2.2
               else P (seq_apply bm names)) - P bm
            applied_interventions := names }, ?_, rfl, rfl, rfl, rfl,
    ⟨s, hmem, hmin, rfl, rfl⟩⟩
  simp only [simulate_combined_interventions, hloop]
  rw [if_pos hcond, hsort]

/-- C1 witness: concrete two-name request on which the synergy theorem's
hypotheses hold. -/
theorem simulate_combined_synergy_override_witness :
    2 ≤ (([("Sauna"), ("Zinc Supplementation")] : List String)).length ∧
    (∀ n ∈ ([("Sauna"), ("Zinc Supplementation")] : List String),
      (intervention_map n).isSome) ∧
    ∃ r, simulate_combined_interventions sample_P sample_bm
        [("Sauna"), ("Zinc Supplementation")] = .ok r := by
  refine ⟨by norm_num, by decide, ?_⟩
  obtain ⟨r, hr, -⟩ := simulate_combined_synergy_override sample_P sample_bm
    [("Sauna"), ("Zinc Supplementation")] (by norm_num) (by decide)
  exact ⟨r, hr⟩

/-- C2: for every complete biomarker set, `rank_interventions` returns
exactly 25 entries, all sharing the baseline `base_pheno_age`; the list is a
permutation of one independently computed entry per catalog rule (each rule
applied to the original biomarkers), sorted non-decreasing by delta, with
equal deltas kept in catalog order (stable sort). -/
theorem rank_interventions_spec {α : Type*} [LinearOrderedField α]
    (P : Biomarkers → α) (bm : Biomarkers) :
    (rank_interventions P bm).length = 25 ∧
    (∀ e ∈ rank_interventions P bm, e.base_pheno_age = P bm) ∧
    List.Perm (rank_interventions P bm)
      (get_interventions.map fun item =>
        { intervention := item.1, base_pheno_age := P bm, new_pheno_age := P (item.2 bm),
          delta := P (item.2 bm) - P bm : RankingEntry α }) ∧
    (rank_interventions P bm).Pairwise (fun a b => a.delta ≤ b.delta) ∧
    (∀ a b : RankingEntry α,
      List.Sublist [a, b] (get_interventions.map fun item =>
        { intervention := item.1, base_pheno_age := P bm, new_pheno_age := P (item.2 bm),
          delta := P (item.2 bm) - P bm : RankingEntry α }) →
      a.delta = b.delta → List.Sublist [a, b] (rank_interventions P bm)) := by
  have htrans : ∀ (a b c : RankingEntry α),
      (decide (a.delta ≤ b.delta)) → (decide (b.delta ≤ c.delta)) →
      (decide (a.delta ≤ c.delta)) := by
    intro a b c hab hbc
    simp only [decide_eq_true_eq] at *
    exact le_trans hab hbc
  have htotal : ∀ (a b : RankingEntry α),
      (decide (a.delta ≤ b.delta)) || (decide (b.delta ≤ a.delta)) := by
    intro a b
    simpa using le_total a.delta b.delta
  refine ⟨?_, ?_, ?_, ?_, ?_⟩
  · rw [rank_interventions, List.length_mergeSort, List.length_map]
    rfl
  · intro e he
    have he2 : ∃ a b, (a, b) ∈ get_interventions ∧
        ({ intervention := a, base_pheno_age := P bm, new_pheno_age := P (b bm),
           delta := P (b bm) - P bm : RankingEntry α }) = e := by
      simpa [rank_interventions] using he
    obtain ⟨a, b, hmem, hitem⟩ := he2
    rw [← hitem]
  · exact List.mergeSort_perm _ _
  · have hp := List.sorted_mergeSort htrans htotal
      (get_interventions.map fun item =>
        { intervention := item.1, base_pheno_age := P bm, new_pheno_age := P (item.2 bm),
          delta := P (item.2 bm) - P bm : RankingEntry α })
    rw [rank_interventions]
    exact hp.imp (by intro a b hab; simpa using hab)
  · intro a b hsub hdelta
    rw [rank_interventions]
    exact List.pair_sublist_mergeSort htrans htotal (by simp [hdelta]) hsub

/-- C3 counterexample: at `cex_biomarkers` with the real PhenoAge formula,
the two-intervention request Sauna + Zinc reports a delta strictly greater
(worse) than the weaker of the two isolated deltas, so the claimed bound
fails.  Both isolated deltas are positive here (each raises a low white
blood cell count), so no synergy override fires. -/
theorem simulate_combined_pair_weaker_cex :
    ∃ r, simulate_combined_interventions pheno_age cex_biomarkers
        [("Sauna"), ("Zinc Supplementation")] = .ok r ∧
      max (pheno_age (apply_sauna cex_biomarkers) - pheno_age cex_biomarkers)
          (pheno_age (apply_zinc cex_biomarkers) - pheno_age cex_biomarkers) < r.delta := by
  refine ⟨_, simulate_combined_pair pheno_age cex_biomarkers _ _ apply_sauna apply_zinc
    cex_lookup_sauna cex_lookup_zinc, ?_⟩
  rw [cex_sauna, cex_zinc, cex_zinc2]
  dsimp only
  rw [min_self, max_self, cex_d_one, cex_d_two]
  rw [if_neg (by norm_num)]
  rw [cex_d_two]
  norm_num

/-- C3 (amended): for every complete biomarker set and every pair of distinct
catalog intervention names, provided the stronger (most negative) isolated
delta is non-positive, the delta reported by
`simulate_combined_interventions` is at most the weaker (less negative) of
the two isolated deltas. -/
theorem simulate_combined_pair_le_weaker {α : Type*} [LinearOrderedField α]
    (P : Biomarkers → α) (bm : Biomarkers) (n1 n2 : String)
    (f1 f2 : Biomarkers → Biomarkers)
    (h1 : intervention_map n1 = some f1) (h2 : intervention_map n2 = some f2)
    (_hdistinct : n1 ≠ n2)
    (hnonpos : min (P (f1 bm) - P bm) (P (f2 bm) - P bm) ≤ 0) :
    ∃ r, simulate_combined_interventions P bm [n1, n2] = .ok r ∧
      r.delta ≤ max (P (f1 bm) - P bm) (P (f2 bm) - P bm) := by
  refine ⟨_, simulate_combined_pair P bm n1 n2 f1 f2 h1 h2, ?_⟩
  have hminmax : min (P (f1 bm) - P bm) (P (f2 bm) - P bm) ≤
      max (P (f1 bm) - P bm) (P (f2 bm) - P bm) :=
    le_trans (min_le_left _ _) (le_max_left _ _)
  dsimp only
  split_ifs with hcase
  · have h22 : min (P (f1 bm) - P bm) (P (f2 bm) - P bm) * 2.2 ≤
        min (P (f1 bm) - P bm) (P (f2 bm) - P bm) := by nlinarith
    have hring : P bm + min (P (f1 bm) - P bm) (P (f2 bm) - P bm) * 2.2 - P bm =
        min (P (f1 bm) - P bm) (P (f2 bm) - P bm) * 2.2 := by ring
    rw [hring]
    linarith
  · have hle : P (f2 (f1 bm)) - P bm ≤
        min (P (f1 bm) - P bm) (P (f2 bm) - P bm) * 2.2 := not_lt.mp hcase
    have h22 : min (P (f1 bm) - P bm) (P (f2 bm) - P bm) * 2.2 ≤
        min (P (f1 bm) - P bm) (P (f2 bm) - P bm) := by nlinarith
    linarith

/-- C3 witness: concrete instantiation of the amended pair bound, with
Sauna lowering glucose (negative isolated delta for the glucose-valued
calculator) and Zinc leaving it unchanged. -/
theorem simulate_combined_pair_le_weaker_witness :
    intervention_map ("Sauna") = some apply_sauna ∧
    intervention_map ("Zinc Supplementation") = some apply_zinc ∧
    (("Sauna") ≠ ("Zinc Supplementation" : String)) ∧
    min (sample_P (apply_sauna sample_bm) - sample_P sample_bm)
        (sample_P (apply_zinc sample_bm) - sample_P sample_bm) ≤ 0 ∧
    ∃ r, simulate_combined_interventions sample_P sample_bm
        [("Sauna"), ("Zinc Supplementation")] = .ok r ∧
      r.delta ≤ max (sample_P (apply_sauna sample_bm) - sample_P sample_bm)
        (sample_P (apply_zinc sample_bm) - sample_P sample_bm) := by
  have hmin : min (sample_P (apply_sauna sample_bm) - sample_P sample_bm)
      (sample_P (apply_zinc sample_bm) - sample_P sample_bm) ≤ 0 := by
    simp only [sample_P, sample_bm, apply_sauna, apply_zinc, clamp]
    norm_num
  exact ⟨rfl, rfl, by decide, hmin,
    simulate_combined_pair_le_weaker sample_P sample_bm _ _ apply_sauna apply_zinc
      rfl rfl (by decide) hmin⟩

/-- C4: for every complete biomarker set and single catalog name, the
one-element simulation applies no synergy correction: the reported new
phenotypic age is exactly the recomputed pheno age of the transformed
biomarkers, and the delta agrees with the `rank_interventions` entry for the
same name. -/
theorem simulate_combined_singleton {α : Type*} [LinearOrderedField α]
    (P : Biomarkers → α) (bm : Biomarkers) (n : String) (fn : Biomarkers → Biomarkers)
    (h : intervention_map n = some fn) :
    ∃ r, simulate_combined_interventions P bm [n] = .ok r ∧
      r.new_pheno_age = P (fn bm) ∧ r.delta = P (fn bm) - P bm ∧
      ∀ e ∈ rank_interventions P bm, e.intervention = n → e.delta = P (fn bm) - P bm := by
  have hloop : apply_loop bm [] [n] = .ok (fn bm, [n]) := by
    rw [apply_loop, h]
    rfl
  have heff : individual_effects P bm [n] = [P (fn bm) - P bm] := by
    simp [individual_effects, h]
  refine ⟨{ original_biomarkers := bm
            updated_biomarkers := fn bm
            original_pheno_age := P bm
            new_pheno_age := P (fn bm)
            delta := P (fn bm) - P bm
            applied_interventions := [n] }, ?_, rfl, rfl, ?_⟩
  · simp [simulate_combined_interventions, hloop, heff]
  · intro e he hname
    have he2 : ∃ a b, (a, b) ∈ get_interventions ∧
        ({ intervention := a, base_pheno_age := P bm, new_pheno_age := P (b bm),
           delta := P (b bm) - P bm : RankingEntry α }) = e := by
      simpa [rank_interventions] using he
    obtain ⟨a, b, hmem, hitem⟩ := he2
    have hname' : a = n := by rw [← hitem] at hname; exact hname
    have hfn : b = fn := intervention_map_mem h (a, b) hmem hname'
    rw [← hitem]
    simp [hfn]

/-- C4 witness: the singleton simulation at a concrete catalog name. -/
theorem simulate_combined_singleton_witness :
    intervention_map ("Sauna") = some apply_sauna ∧
    ∃ r, simulate_combined_interventions sample_P sample_bm [("Sauna")] = .ok r ∧
      r.new_pheno_age = sample_P (apply_sauna sample_bm) ∧
      r.delta = sample_P (apply_sauna sample_bm) - sample_P sample_bm ∧
      ∀ e ∈ rank_interventions sample_P sample_bm, e.intervention = ("Sauna") →
        e.delta = sample_P (apply_sauna sample_bm) - sample_P sample_bm :=
  ⟨rfl, simulate_combined_singleton sample_P sample_bm ("Sauna") apply_sauna rfl⟩

/-- C5: for every complete biomarker set, a request containing a name missing
from the catalog fails with the `Unknown intervention` error naming the first
unrecognized entry; the loop applies the known rules preceding it to the
working set before failing, and (the embedding being pure) the caller's input
is untouched. -/
theorem simulate_combined_unknown_name {α : Type*} [LinearOrderedField α]
    (P : Biomarkers → α) (bm : Biomarkers) (pre rest : List String) (unk : String)
    (hpre : ∀ n ∈ pre, (intervention_map n).isSome)
    (hunk : intervention_map unk = none) :
    simulate_combined_interventions P bm (pre ++ unk :: rest) =
      .error ("Unknown intervention: " ++ unk) ∧
    apply_loop bm [] (pre ++ unk :: rest) =
      apply_loop (seq_apply bm pre) pre (unk :: rest) ∧
    apply_loop (seq_apply bm pre) pre (unk :: rest) =
      .error ("Unknown intervention: " ++ unk) := by
  have h2 : apply_loop bm [] (pre ++ unk :: rest) =
      apply_loop (seq_apply bm pre) pre (unk :: rest) := by
    simpa using apply_loop_append_known bm [] pre (unk :: rest) hpre
  have h3 : apply_loop (seq_apply bm pre) pre (unk :: rest) =
      .error ("Unknown intervention: " ++ unk) := by
    rw [apply_loop, hunk]
  refine ⟨?_, h2, h3⟩
  simp [simulate_combined_interventions, h2, h3]

/-- C5 witness: a concrete request whose second name is not in the catalog. -/
theorem simulate_combined_unknown_name_witness :
    (∀ n ∈ ([("Sauna")] : List String), (intervention_map n).isSome) ∧
    intervention_map ("Meditation") = none ∧
    simulate_combined_interventions sample_P sample_bm
        ([("Sauna")] ++ ("Meditation") :: []) =
      .error ("Unknown intervention: " ++ ("Meditation")) :=
  ⟨by decide, rfl,
    (simulate_combined_unknown_name sample_P sample_bm [("Sauna")] [] ("Meditation")
      (by decide) rfl).1⟩

/-- C6: `calculate_phenoage` on a mapping missing at least one required key
fails with the error message listing exactly the absent required keys, each
with its expected unit; with all ten keys present the missing-input branch
is not taken and the metrics are returned. -/
theorem calculate_phenoage_missing_inputs (data : BiomarkerData) :
    ((∃ k ∈ required_biomarkers, (List.lookup k data).isNone) →
      calculate_phenoage data = .error ("Missing required biomarkers: " ++
        String.intercalate ", "
          ((required_biomarkers.filter fun k => (List.lookup k data).isNone).map
            fun k => k ++ " (" ++ expected_units k ++ ")"))) ∧
    ((∀ k ∈ required_biomarkers, (List.lookup k data).isSome) →
      calculate_phenoage data = .ok (phenoage_core (extract_biomarkers data))) := by
  constructor
  · rintro ⟨k, hk, hnone⟩
    have hne : missing_biomarkers data ≠ [] := by
      rw [missing_biomarkers_eq]
      simp only [ne_eq, List.map_eq_nil_iff, List.filter_eq_nil_iff]
      intro hall
      exact (hall k hk) hnone
    rw [calculate_phenoage, if_pos hne, missing_biomarkers_eq]
  · intro hall
    have hnil : missing_biomarkers data = [] := by
      rw [missing_biomarkers_eq]
      simp only [List.map_eq_nil_iff, List.filter_eq_nil_iff]
      intro k hk hno
      have h2 := hall k hk
      cases hopt : List.lookup k data <;> rw [hopt] at h2 hno <;> simp_all
    rw [calculate_phenoage, if_neg (by simp [hnil])]

/-- C6 witness: a mapping holding only albumin produces the error naming the
other nine required keys with their units. -/
theorem calculate_phenoage_missing_inputs_witness :
    (∃ k ∈ required_biomarkers,
      (List.lookup k ([(("albumin"), (4:ℚ))])).isNone) ∧
    calculate_phenoage ([(("albumin"), (4:ℚ))]) =
      .error ("Missing required biomarkers: creatinine (mg/dL), glucose (mg/dL), crp (mg/L), lymphocyte (%), mcv (fL), rdw (%), alkaline_phosphatase (U/L), wbc (10^3 cells/µL), chronological_age (years)") := by
  refine ⟨by decide, ?_⟩
  have h := (calculate_phenoage_missing_inputs ([(("albumin"), (4:ℚ))])).1 (by decide)
  rw [h]
  rfl

/-- C7: for every complete biomarker set with `crp ≤ 0`, the log argument is
floored to `1e-6`, the converted CRP term equals `ln(1e-6)`, and the
computation proceeds on positive log arguments (mortality score below one
and a positive argument for the final log), yielding a finite phenotypic
age. -/
theorem calculate_phenoage_crp_guard (b : Biomarkers) (h : b.crp ≤ 0) :
    crp_for_calc b.crp = 0.000001 ∧
    (phenoage_core b).crp_converted = Real.log 0.000001 ∧
    (phenoage_core b).mort_score < 1 ∧
    0 < -0.00553 * Real.log (1 - (phenoage_core b).mort_score) := by
  have hguard : crp_for_calc b.crp = 0.000001 := by
    unfold crp_for_calc
    rw [if_pos (by nlinarith)]
  refine ⟨hguard, ?_, mort_score_lt_one b, log_arg_pos b⟩
  show Real.log ((crp_for_calc b.crp : ℚ) : ℝ) = Real.log 0.000001
  rw [hguard]
  norm_num

/-- C7 witness: the guard at a concrete biomarker set with `crp = 0`. -/
theorem calculate_phenoage_crp_guard_witness :
    sample_crp0.crp ≤ 0 ∧
    (crp_for_calc sample_crp0.crp = 0.000001 ∧
      (phenoage_core sample_crp0).crp_converted = Real.log 0.000001 ∧
      (phenoage_core sample_crp0).mort_score < 1 ∧
      0 < -0.00553 * Real.log (1 - (phenoage_core sample_crp0).mort_score)) := by
  have h0 : sample_crp0.crp ≤ 0 := by norm_num [sample_crp0]
  exact ⟨h0, calculate_phenoage_crp_guard sample_crp0 h0⟩

/-- C8: the Regular Exercise rule changes only crp, glucose, wbc and
lymphocyte, never fails, and its new values are exactly the tiered
reductions with their floors: crp by 3/1/0.2 floored at 0.01, glucose by
15/7/3 floored at 70, wbc by 1 floored at 4 only when at least 8, and
lymphocyte raised by 5 clamped to the interval from 5 to 60 only when below
30. -/
theorem apply_exercise_spec (b : Biomarkers) :
    (apply_exercise b).albumin = b.albumin ∧
    (apply_exercise b).creatinine = b.creatinine ∧
    (apply_exercise b).mcv = b.mcv ∧
    (apply_exercise b).rdw = b.rdw ∧
    (apply_exercise b).alkaline_phosphatase = b.alkaline_phosphatase ∧
    (apply_exercise b).chronological_age = b.chronological_age ∧
    (apply_exercise b).crp =
      (if 3.0 ≤ b.crp then max (b.crp - 3.0) 0.01
       else if 1.0 ≤ b.crp then max (b.crp - 1.0) 0.01
       else max (b.crp - 0.2) 0.01) ∧
    (apply_exercise b).glucose =
      (if 130 ≤ b.glucose then max (b.glucose - 15) 70
       else if 100 ≤ b.glucose then max (b.glucose - 7) 70
       else max (b.glucose - 3) 70) ∧
    (apply_exercise b).wbc =
      (if 8.0 ≤ b.wbc then max (b.wbc - 1.0) 4.0 else b.wbc) ∧
    (apply_exercise b).lymphocyte =
      (if b.lymphocyte < 30 then min (max (b.lymphocyte + 5) 5) 60
       else b.lymphocyte) := by
  refine ⟨rfl, rfl, rfl, rfl, rfl, rfl, ?_, ?_, rfl, ?_⟩
  · show (if 3.0 ≤ b.crp then clamp (b.crp - 3.0) 0.01 none
      else if 1.0 ≤ b.crp then clamp (b.crp - 1.0) 0.01 none
      else clamp (b.crp - 0.2) 0.01 none) = _
    simp only [clamp_none_eq_max]
  · show (if 130 ≤ b.glucose then clamp (b.glucose - 15) 70 none
      else if 100 ≤ b.glucose then clamp (b.glucose - 7) 70 none
      else clamp (b.glucose - 3) 70 none) = _
    simp only [clamp_none_eq_max]
  · show (if b.lymphocyte < 30 then clamp (b.lymphocyte + 5) 5 (some 60)
      else b.lymphocyte) = _
    rw [clamp_some_eq_min_max (b.lymphocyte + 5) 5 60 (by norm_num)]

/-- C9: `get_reference_values` maps the 50th label to the chronological age
exactly, the five reference values are strictly ordered, each equals
`A + 5.5 * ppf q` for the matching quantile, and the 10th/90th and
25th/75th pairs are symmetric around the 50th; `ppf` is the quantile of the
external stats library, assumed strictly monotone on the open unit interval
with median zero and the usual reflection symmetry. -/
theorem get_reference_values_spec (ppf : ℝ → ℝ) (A : ℝ)
    (hmono : StrictMonoOn ppf (Set.Ioo 0 1)) (hmed : ppf 0.5 = 0)
    (hsymm : ∀ q ∈ Set.Ioo (0:ℝ) 1, ppf (1 - q) = -ppf q) :
    (get_reference_values ppf A).fiftieth = A ∧
    (get_reference_values ppf A).fiftieth = A + 5.5 * ppf 0.5 ∧
    (get_reference_values ppf A).tenth = A + 5.5 * ppf 0.9 ∧
    (get_reference_values ppf A).twentyfifth = A + 5.5 * ppf 0.75 ∧
    (get_reference_values ppf A).seventyfifth = A + 5.5 * ppf 0.25 ∧
    (get_reference_values ppf A).ninetieth = A + 5.5 * ppf 0.1 ∧
    (get_reference_values ppf A).twentyfifth < (get_reference_values ppf A).tenth ∧
    (get_reference_values ppf A).fiftieth < (get_reference_values ppf A).twentyfifth ∧
    (get_reference_values ppf A).seventyfifth < (get_reference_values ppf A).fiftieth ∧
    (get_reference_values ppf A).ninetieth < (get_reference_values ppf A).seventyfifth ∧
    (get_reference_values ppf A).tenth - A = -((get_reference_values ppf A).ninetieth - A) ∧
    (get_reference_values ppf A).twentyfifth - A =
      -((get_reference_values ppf A).seventyfifth - A) := by
  have h01 : (0.1:ℝ) ∈ Set.Ioo (0:ℝ) 1 := by norm_num
  have h025 : (0.25:ℝ) ∈ Set.Ioo (0:ℝ) 1 := by norm_num
  have h05 : (0.5:ℝ) ∈ Set.Ioo (0:ℝ) 1 := by norm_num
  have h075 : (0.75:ℝ) ∈ Set.Ioo (0:ℝ) 1 := by norm_num
  have h09 : (0.9:ℝ) ∈ Set.Ioo (0:ℝ) 1 := by norm_num
  have m1 : ppf 0.75 < ppf 0.9 := hmono h075 h09 (by norm_num)
  have m2 : ppf 0.5 < ppf 0.75 := hmono h05 h075 (by norm_num)
  have m3 : ppf 0.25 < ppf 0.5 := hmono h025 h05 (by norm_num)
  have m4 : ppf 0.1 < ppf 0.25 := hmono h01 h025 (by norm_num)
  have s1 : ppf 0.9 = -ppf 0.1 := by
    have hs := hsymm 0.1 h01
    norm_num at hs ⊢
    exact hs
  have s2 : ppf 0.75 = -ppf 0.25 := by
    have hs := hsymm 0.25 h025
    norm_num at hs ⊢
    exact hs
  unfold get_reference_values
  refine ⟨rfl, by rw [hmed]; ring, rfl, rfl, rfl, rfl, ?_, ?_, ?_, ?_, ?_, ?_⟩
  · show A + 5.5 * ppf 0.75 < A + 5.5 * ppf 0.9
    nlinarith
  · show A < A + 5.5 * ppf 0.75
    nlinarith [hmed, m2]
  · show A + 5.5 * ppf 0.25 < A
    nlinarith [hmed, m3]
  · show A + 5.5 * ppf 0.1 < A + 5.5 * ppf 0.25
    nlinarith
  · show A + 5.5 * ppf 0.9 - A = -(A + 5.5 * ppf 0.1 - A)
    rw [s1]
    ring
  · show A + 5.5 * ppf 0.75 - A = -(A + 5.5 * ppf 0.25 - A)
    rw [s2]
    ring

/-- C9 witness: the reference-value theorem applied to a concrete quantile
function satisfying the hypotheses. -/
theorem get_reference_values_spec_witness :
    StrictMonoOn (fun q : ℝ => q - 0.5) (Set.Ioo 0 1) ∧
    ((fun q : ℝ => q - 0.5) 0.5 = 0) ∧
    (∀ q ∈ Set.Ioo (0:ℝ) 1,
      (fun q : ℝ => q - 0.5) (1 - q) = -((fun q : ℝ => q - 0.5) q)) ∧
    (get_reference_values (fun q : ℝ => q - 0.5) 40).fiftieth = 40 ∧
    (get_reference_values (fun q : ℝ => q - 0.5) 40).twentyfifth <
      (get_reference_values (fun q : ℝ => q - 0.5) 40).tenth := by
  have hmono : StrictMonoOn (fun q : ℝ => q - 0.5) (Set.Ioo 0 1) := by
    intro x _ y _ hxy
    simpa using hxy
  have hmed : (fun q : ℝ => q - 0.5) 0.5 = 0 := by norm_num
  have hsymm : ∀ q ∈ Set.Ioo (0:ℝ) 1,
      (fun q : ℝ => q - 0.5) (1 - q) = -((fun q : ℝ => q - 0.5) q) := by
    intro q _
    dsimp only
    ring
  have h := get_reference_values_spec (fun q : ℝ => q - 0.5) 40 hmono hmed hsymm
  exact ⟨hmono, hmed, hsymm, h.1, h.2.2.2.2.2.2.1⟩

/-- C10: for every complete biomarker set, the empty request succeeds and is
the identity: unchanged biomarkers, new pheno age equal to baseline, delta
zero, empty applied list, and no synergy correction. -/
theorem simulate_combined_empty_names {α : Type*} [LinearOrderedField α]
    (P : Biomarkers → α) (bm : Biomarkers) :
    ∃ r, simulate_combined_interventions P bm [] = .ok r ∧
      r.original_biomarkers = bm ∧ r.updated_biomarkers = bm ∧
      r.original_pheno_age = P bm ∧ r.new_pheno_age = P bm ∧
      r.delta = 0 ∧ r.applied_interventions = [] := by
  refine ⟨{ original_biomarkers := bm
            updated_biomarkers := bm
            original_pheno_age := P bm
            new_pheno_age := P bm
            delta := P bm - P bm
            applied_interventions := [] }, ?_, rfl, rfl, rfl, rfl, by simp, rfl⟩
  simp [simulate_combined_interventions, individual_effects, apply_loop]

end PhenoAge
